import Mathlib

/-!
Verification development for the GurumDDS RMW binding
(request/response correlation, discovery listener, service availability,
entity lifecycle).  Each C++ function relevant to the specification is
shallowly embedded as an executable Lean definition; external vendor-SDK
calls (allocation, DDS take/write, deletes) are modelled as explicit
outcome parameters so that every control-flow path of the source is
represented.
-/

/-- RMW return codes used by the embedded functions
(RMW_RET_OK, RMW_RET_ERROR, RMW_RET_INVALID_ARGUMENT,
RMW_RET_INCORRECT_RMW_IMPLEMENTATION). -/
inductive RmwRet
  | ok
  | error
  | invalidArgument
  | incorrectRmwImplementation
  deriving DecidableEq, Repr

/-- A 16-byte GUID (writer identity), as the list of its bytes.
memcmp(a, b, 16) == 0 on two 16-byte buffers is byte-for-byte equality,
i.e. equality of the two lists. -/
abbrev Guid : Type := List Nat

/-! ## rmw_take_response (part_002, lines 30-163) -/

/-- Result of deserialize_response on a valid sample: on success the
response body is written into the caller buffer and the embedded
correlation pair (sequence number, client GUID) is extracted. -/
structure DeserializedResponse where
  seq : Int
  guid : Guid
  body : Nat
  deriving DecidableEq

/-- One sample delivered by dds_DataReader_raw_take, together with the
outcome of the (external) deserialize_response call on it.
sourceSec/sourceNanosec are the sample-info source timestamp fields. -/
structure ResponseSample where
  valid_data : Bool
  deser : Option DeserializedResponse
  sourceSec : Int
  sourceNanosec : Int
  deriving DecidableEq

/-- Outcome of the raw take on the response reader. -/
inductive RawTakeOutcome
  | noData
  | takeError
  | sample (s : ResponseSample)
  deriving DecidableEq

/-- Client-side state consulted by rmw_take_response: the locally
generated writer identity, and whether the reader / typesupport handles
are non-null. -/
structure ClientRec where
  writer_guid : Guid
  reader_present : Bool
  typesupport_present : Bool
  deriving DecidableEq

/-- Environment of one rmw_take_response call: the three sequence
allocations and the raw-take outcome. -/
structure TakeRespEnv where
  dataSeqOk : Bool
  infoSeqOk : Bool
  sizeSeqOk : Bool
  outcome : RawTakeOutcome
  deriving DecidableEq

/-- The request-header fields written on the taken path. -/
structure RespHeader where
  source_timestamp : Int
  received_timestamp : Int
  sequence_number : Int
  writer_guid : Guid
  deriving DecidableEq

/-- Observable result of rmw_take_response: return code, the taken flag,
the header written (none = untouched), and what was written into the
caller-supplied ros_response buffer (none = unchanged). -/
structure TakeRespOut where
  ret : RmwRet
  taken : Bool
  header : Option RespHeader
  responseWritten : Option Nat
  deriving DecidableEq

/-- Shallow embedding of rmw_take_response (part_002 lines 30-163).
Null-handle checks return error; no-data returns OK with taken = false;
a valid sample is deserialized into ros_response first, and only then is
the embedded 16-byte identity compared (memcmp) against the client
writer identity: on equality the header is filled and taken is set, on
inequality the sample is dropped with taken = false and OK. -/
def rmw_take_response (client : Option ClientRec) (env : TakeRespEnv) : TakeRespOut :=
  match client with
  | none => ⟨RmwRet.error, false, none, none⟩
  | some ci =>
    -- *taken = false happens before the client_info null check in the
    -- source; all later error paths leave it false as well.
    if !ci.reader_present then ⟨RmwRet.error, false, none, none⟩
    else if !ci.typesupport_present then ⟨RmwRet.error, false, none, none⟩
    else if !env.dataSeqOk then ⟨RmwRet.error, false, none, none⟩
    else if !env.infoSeqOk then ⟨RmwRet.error, false, none, none⟩
    else if !env.sizeSeqOk then ⟨RmwRet.error, false, none, none⟩
    else
      match env.outcome with
      | RawTakeOutcome.noData => ⟨RmwRet.ok, false, none, none⟩
      | RawTakeOutcome.takeError => ⟨RmwRet.error, false, none, none⟩
      | RawTakeOutcome.sample s =>
        if s.valid_data then
          match s.deser with
          | none => ⟨RmwRet.error, false, none, none⟩
          | some d =>
            if d.guid = ci.writer_guid then
              ⟨RmwRet.ok, true,
                some ⟨s.sourceSec * 1000000000 + s.sourceNanosec, 0, d.seq, d.guid⟩,
                some d.body⟩
            else
              ⟨RmwRet.ok, false, none, some d.body⟩
        else
          ⟨RmwRet.ok, false, none, none⟩

/-! Concrete inputs shared by the rmw_take_response theorems. -/

/-- A concrete 16-byte identity. -/
def guidA : Guid := List.replicate 16 1

/-- A different concrete 16-byte identity. -/
def guidB : Guid := List.replicate 16 2

/-- A concrete client record owning identity guidA. -/
def cliA : ClientRec := ⟨guidA, true, true⟩

/-- A deserialized response addressed to guidA. -/
def deserA : DeserializedResponse := ⟨5, guidA, 7⟩

/-- A deserialized response addressed to guidB. -/
def deserB : DeserializedResponse := ⟨6, guidB, 9⟩

/-- A valid sample whose embedded identity is guidA. -/
def sampleRespA : ResponseSample := ⟨true, some deserA, 1, 2⟩

/-- A valid sample whose embedded identity is guidB. -/
def sampleRespB : ResponseSample := ⟨true, some deserB, 3, 4⟩

/-- Take environment delivering the guidA-addressed sample. -/
def envRespA : TakeRespEnv := ⟨true, true, true, RawTakeOutcome.sample sampleRespA⟩

/-- Take environment delivering the guidB-addressed sample. -/
def envRespB : TakeRespEnv := ⟨true, true, true, RawTakeOutcome.sample sampleRespB⟩

/-- Claim C1: in rmw_take_response, a successfully deserialized valid
sample is taken (with the correlation fields copied into the output
request header) if and only if the embedded 16-byte identity equals the
client writer identity byte for byte; any other identity is discarded
with taken = false and return code OK, and a take yielding no data also
returns OK with taken = false. -/
theorem take_response_identity_filter
    (ci : ClientRec) (env : TakeRespEnv)
    (hr : ci.reader_present = true) (ht : ci.typesupport_present = true)
    (h1 : env.dataSeqOk = true) (h2 : env.infoSeqOk = true) (h3 : env.sizeSeqOk = true) :
    (env.outcome = RawTakeOutcome.noData →
      rmw_take_response (some ci) env = ⟨RmwRet.ok, false, none, none⟩) ∧
    (∀ s d, env.outcome = RawTakeOutcome.sample s → s.valid_data = true →
      s.deser = some d →
      (rmw_take_response (some ci) env).ret = RmwRet.ok ∧
      ((rmw_take_response (some ci) env).taken = true ↔ d.guid = ci.writer_guid) ∧
      (d.guid = ci.writer_guid →
        (rmw_take_response (some ci) env).header =
          some ⟨s.sourceSec * 1000000000 + s.sourceNanosec, 0, d.seq, d.guid⟩) ∧
      (d.guid ≠ ci.writer_guid →
        (rmw_take_response (some ci) env).taken = false ∧
        (rmw_take_response (some ci) env).header = none)) := by
  constructor
  · intro ho
    simp [rmw_take_response, hr, ht, h1, h2, h3, ho]
  · intro s d ho hv hd
    by_cases hg : d.guid = ci.writer_guid
    · simp [rmw_take_response, hr, ht, h1, h2, h3, ho, hv, hd, hg]
    · simp [rmw_take_response, hr, ht, h1, h2, h3, ho, hv, hd, hg]

/-- Witness for C1: the theorem applied to a concrete client and a
concrete matching sample yields taken = true. -/
theorem take_response_identity_filter_witness :
    (rmw_take_response (some cliA) envRespA).taken = true :=
  ((take_response_identity_filter cliA envRespA rfl rfl rfl rfl rfl).2
    sampleRespA deserA rfl rfl rfl).2.1.mpr rfl

/-- Claim C9: rmw_take_response deserializes the sample body into the
caller ros_response buffer before the identity comparison, so on the
discard path (valid sample carrying another client identity) the call
returns OK with taken = false even though ros_response has been
overwritten with the other client response body. -/
theorem take_response_overwrites_on_discard
    (ci : ClientRec) (env : TakeRespEnv) (s : ResponseSample) (d : DeserializedResponse)
    (hr : ci.reader_present = true) (ht : ci.typesupport_present = true)
    (h1 : env.dataSeqOk = true) (h2 : env.infoSeqOk = true) (h3 : env.sizeSeqOk = true)
    (ho : env.outcome = RawTakeOutcome.sample s) (hv : s.valid_data = true)
    (hd : s.deser = some d) (hg : d.guid ≠ ci.writer_guid) :
    (rmw_take_response (some ci) env).ret = RmwRet.ok ∧
    (rmw_take_response (some ci) env).taken = false ∧
    (rmw_take_response (some ci) env).responseWritten = some d.body := by
  simp [rmw_take_response, hr, ht, h1, h2, h3, ho, hv, hd, hg]

/-- Witness for C9: a concrete client owning guidA receiving a sample
addressed to guidB: OK, not taken, but the response buffer now holds the
guidB response body. -/
theorem take_response_overwrites_on_discard_witness :
    (rmw_take_response (some cliA) envRespB).ret = RmwRet.ok ∧
    (rmw_take_response (some cliA) envRespB).taken = false ∧
    (rmw_take_response (some cliA) envRespB).responseWritten = some deserB.body :=
  take_response_overwrites_on_discard cliA envRespB sampleRespB deserB
    rfl rfl rfl rfl rfl rfl rfl rfl (by decide)

/-! ## rmw_send_request (rmw_request.cpp, lines 30-109) and the client
sequence counter initialisation (part_000, lines 157-160) -/

/-- Mutable client state touched by rmw_send_request: the int64 sequence
counter and the constant writer identity. -/
structure ClientSendState where
  sequence_number : Int
  writer_guid : Guid
  deriving DecidableEq

/-- rmw_create_client sets sequence_number to 0 when it builds the
client info record (part_000 line 160). -/
def newClientSendState (g : Guid) : ClientSendState := ⟨0, g⟩

/-- Outcomes of the external calls made by rmw_send_request:
allocate_request, serialize_request, dds_DataWriter_raw_write. -/
structure SendEnv where
  allocOk : Bool
  serializeOk : Bool
  writeOk : Bool
  deriving DecidableEq

/-- The correlation pair embedded in a published request payload. -/
structure SentMsg where
  seq : Int
  guid : Guid
  deriving DecidableEq

/-- Result of one rmw_send_request call: return code, the value stored
through sequence_id (none when not reached), the updated client state,
and the payload published on the wire (none when nothing was written). -/
structure SendOut where
  ret : RmwRet
  sequence_id : Option Int
  state : ClientSendState
  published : Option SentMsg
  deriving DecidableEq

/-- Shallow embedding of rmw_send_request (rmw_request.cpp lines 30-109).
serialize_request is called with ++client_info->sequence_number, so the
counter is incremented before serialization even when serialization or
the subsequent write fails; on success *sequence_id receives the
(already incremented) counter value, which is also the value embedded in
the payload. -/
def rmw_send_request (st : ClientSendState) (env : SendEnv) : SendOut :=
  if !env.allocOk then ⟨RmwRet.error, none, st, none⟩
  else
    let st' : ClientSendState := ⟨st.sequence_number + 1, st.writer_guid⟩
    if !env.serializeOk then ⟨RmwRet.error, none, st', none⟩
    else if !env.writeOk then ⟨RmwRet.error, none, st', none⟩
    else ⟨RmwRet.ok, some st'.sequence_number, st',
      some ⟨st'.sequence_number, st'.writer_guid⟩⟩

/-- The all-successful send environment. -/
def sendEnvOk : SendEnv := ⟨true, true, true⟩

/-- n consecutive all-successful sends from a state, returning the list
of values handed back through sequence_id, oldest first. -/
def sendMany (st : ClientSendState) : Nat → List Int
  | 0 => []
  | n + 1 =>
    let out := rmw_send_request st sendEnvOk
    (out.sequence_id.getD 0) :: sendMany out.state n

/-- Claim C2: each successful rmw_send_request pre-increments the counter
and returns the incremented value (so it is strictly greater than the
value before the call), the embedded payload value equals the returned
sequence_id, the counter starts at 0 so the first returned value is 1,
and n consecutive successful sends from a fresh client return 1..n. -/
theorem send_request_sequence_monotonic
    (st : ClientSendState) (env : SendEnv)
    (ha : env.allocOk = true) (hs : env.serializeOk = true) (hw : env.writeOk = true) :
    (rmw_send_request st env).ret = RmwRet.ok ∧
    (rmw_send_request st env).sequence_id = some (st.sequence_number + 1) ∧
    (rmw_send_request st env).state.sequence_number = st.sequence_number + 1 ∧
    (rmw_send_request st env).published =
      some ⟨st.sequence_number + 1, st.writer_guid⟩ ∧
    st.sequence_number < st.sequence_number + 1 ∧
    (∀ env2 : SendEnv,
      st.sequence_number ≤ (rmw_send_request st env2).state.sequence_number) ∧
    (∀ g, (newClientSendState g).sequence_number = 0) ∧
    (∀ g n, sendMany (newClientSendState g) n =
      (List.range n).map (fun i : Nat => (i : Int) + 1)) := by
  refine ⟨?_, ?_, ?_, ?_, ?_, ?_, ?_, ?_⟩
  · simp [rmw_send_request, ha, hs, hw]
  · simp [rmw_send_request, ha, hs, hw]
  · simp [rmw_send_request, ha, hs, hw]
  · simp [rmw_send_request, ha, hs, hw]
  · omega
  · intro env2
    rcases env2 with ⟨a, b, c⟩
    cases a <;> cases b <;> cases c <;> simp [rmw_send_request]
  · intro g; rfl
  · intro g n
    have key : ∀ (n : Nat) (s : Int) (g : Guid),
        sendMany ⟨s, g⟩ n = (List.range n).map (fun i : Nat => s + (i : Int) + 1) := by
      intro n
      induction n with
      | zero => intro s g; simp [sendMany]
      | succ m ih =>
        intro s g
        have h1 : rmw_send_request ⟨s, g⟩ sendEnvOk =
            ⟨RmwRet.ok, some (s + 1), ⟨s + 1, g⟩, some ⟨s + 1, g⟩⟩ := rfl
        show (rmw_send_request ⟨s, g⟩ sendEnvOk).sequence_id.getD 0 ::
            sendMany (rmw_send_request ⟨s, g⟩ sendEnvOk).state m =
            (List.range (m + 1)).map (fun i : Nat => s + (i : Int) + 1)
        rw [h1, List.range_succ_eq_map]
        simp only [Option.getD_some, List.map_cons, List.map_map]
        rw [ih (s + 1) g]
        refine congrArg₂ _ (by norm_num) (List.map_congr_left ?_)
        intro i _
        simp only [Function.comp]
        push_cast
        ring
    rw [show newClientSendState g = ⟨0, g⟩ from rfl, key]
    refine List.map_congr_left ?_
    intro i _
    simp

/-- Witness for C2: one successful send from a fresh client with
identity guidA returns sequence number 1. -/
theorem send_request_sequence_monotonic_witness :
    (rmw_send_request (newClientSendState guidA) sendEnvOk).sequence_id = some 1 :=
  (send_request_sequence_monotonic (newClientSendState guidA) sendEnvOk
    rfl rfl rfl).2.1

/-! ## rmw_service_server_is_available (part_000, lines 482-584) -/

/-- Environment of one availability probe: the two instance-handle
sequence allocations and the two transport-level match-count queries
(none = the vendor call returned a failure code, some n = a sequence of
length n was returned). -/
structure AvailEnv where
  alloc1Ok : Bool
  subQuery : Option Nat
  alloc2Ok : Bool
  pubQuery : Option Nat
  deriving DecidableEq

/-- Client endpoints consulted by the probe. -/
structure AvailClientRec where
  writer_present : Bool
  reader_present : Bool
  deriving DecidableEq

/-- Result of the probe: return code, the value stored in *is_available,
and whether the matched-publications query on the response reader was
performed at all. -/
structure AvailOut where
  ret : RmwRet
  is_available : Bool
  pubQueried : Bool
  deriving DecidableEq

/-- Shallow embedding of rmw_service_server_is_available (part_000 lines
482-584).  *is_available is cleared first; the matched-subscription
count of the request writer is queried; on zero the function returns OK
immediately without querying the response reader; otherwise the
matched-publication count of the response reader decides the flag. -/
def rmw_service_server_is_available (ci : AvailClientRec) (env : AvailEnv) : AvailOut :=
  if !ci.writer_present then ⟨RmwRet.error, false, false⟩
  else if !ci.reader_present then ⟨RmwRet.error, false, false⟩
  else if !env.alloc1Ok then ⟨RmwRet.error, false, false⟩
  else
    match env.subQuery with
    | none => ⟨RmwRet.error, false, false⟩
    | some sub_cnt =>
      if sub_cnt = 0 then ⟨RmwRet.ok, false, false⟩
      else if !env.alloc2Ok then ⟨RmwRet.error, false, false⟩
      else
        match env.pubQuery with
        | none => ⟨RmwRet.error, false, true⟩
        | some pub_cnt =>
          if pub_cnt = 0 then ⟨RmwRet.ok, false, true⟩
          else ⟨RmwRet.ok, true, true⟩

/-- Claim C3: is_available is set to true iff both the matched
subscription count of the request writer and the matched publication
count of the response reader are non-zero; when the first count is zero
the second query is never performed and the flag stays false; in all
these cases the return code is OK. -/
theorem service_server_is_available_both_counts
    (ci : AvailClientRec) (env : AvailEnv) (subCnt pubCnt : Nat)
    (hw : ci.writer_present = true) (hr : ci.reader_present = true)
    (h1 : env.alloc1Ok = true) (h2 : env.alloc2Ok = true)
    (hs : env.subQuery = some subCnt) (hp : env.pubQuery = some pubCnt) :
    (rmw_service_server_is_available ci env).ret = RmwRet.ok ∧
    ((rmw_service_server_is_available ci env).is_available = true ↔
      (0 < subCnt ∧ 0 < pubCnt)) ∧
    (subCnt = 0 →
      (rmw_service_server_is_available ci env).pubQueried = false ∧
      (rmw_service_server_is_available ci env).is_available = false) := by
  rcases Nat.eq_zero_or_pos subCnt with hz | hpos
  · subst hz
    simp [rmw_service_server_is_available, hw, hr, h1, h2, hs, hp]
  · rcases Nat.eq_zero_or_pos pubCnt with hz2 | hpos2
    · subst hz2
      simp [rmw_service_server_is_available, hw, hr, h1, h2, hs, hp,
        Nat.pos_iff_ne_zero.mp hpos]
    · simp [rmw_service_server_is_available, hw, hr, h1, h2, hs, hp,
        Nat.pos_iff_ne_zero.mp hpos, Nat.pos_iff_ne_zero.mp hpos2]
      omega

/-- Witness for C3: both counts non-zero gives OK and available. -/
theorem service_server_is_available_both_counts_witness :
    (rmw_service_server_is_available ⟨true, true⟩ ⟨true, some 1, true, some 2⟩).ret
        = RmwRet.ok ∧
    (rmw_service_server_is_available ⟨true, true⟩ ⟨true, some 1, true, some 2⟩).is_available
        = true :=
  ⟨(service_server_is_available_both_counts ⟨true, true⟩ ⟨true, some 1, true, some 2⟩
      1 2 rfl rfl rfl rfl rfl rfl).1,
   (service_server_is_available_both_counts ⟨true, true⟩ ⟨true, some 1, true, some 2⟩
      1 2 rfl rfl rfl rfl rfl rfl).2.1.mpr (by decide)⟩

/-! ## Discovery listener callbacks pub_on_data_available and
sub_on_data_available (types.hpp, lines 51-135 and 137-221) -/

/-- One discovery sample from a built-in reader: the instance handle
(possibly NULL), validity and instance state, the 16-byte entity
identity held in the instance handle, and the builtin-topic payload
fields used by the cache mutation. -/
structure BISample where
  instanceHandleNull : Bool
  valid_data : Bool
  alive : Bool
  guid : Guid
  participant_guid : Guid
  topic_name : String
  type_name : String
  deriving DecidableEq

/-- DDS return codes distinguished by the listeners. -/
inductive DdsRet
  | ok
  | noData
  | err
  deriving DecidableEq

/-- Environment of one data-available callback: listener context
presence, the two sequence allocations, the take return code, and the
samples the reader would deliver. -/
structure ListenerEnv where
  contextPresent : Bool
  dataSeqOk : Bool
  infoSeqOk : Bool
  takeRet : DdsRet
  available : List BISample
  deriving DecidableEq

/-- A mutation applied to the topic cache. -/
inductive CacheOp
  | add (participant_guid guid : Guid) (topic_name type_name : String)
  | remove (guid : Guid)
  deriving DecidableEq

/-- Observable effect of one callback: the cache mutations in order, the
number of graph-guard-condition triggers, and the number of samples
taken from the reader. -/
structure ListenerOut where
  cacheOps : List CacheOp
  triggerCount : Nat
  takenCount : Nat
  deriving DecidableEq

/-- The max_samples argument value dds_LENGTH_UNLIMITED: no bound. -/
def dds_LENGTH_UNLIMITED : Option Nat := none

/-- dds_DataReader_take limited by a max_samples argument: it delivers
all available samples under dds_LENGTH_UNLIMITED, and at most m samples
under an explicit bound m. -/
def dds_DataReader_take (available : List BISample) (maxSamples : Option Nat) :
    List BISample :=
  match maxSamples with
  | none => available
  | some m => available.take m

/-- Per-sample body of the listener loop: a NULL instance handle is
skipped; a valid alive sample adds its topic to the cache; anything else
removes the entity keyed by the instance-handle identity. -/
def processSample (s : BISample) : List CacheOp :=
  if s.instanceHandleNull then []
  else if s.valid_data && s.alive then
    [CacheOp.add s.participant_guid s.guid s.topic_name s.type_name]
  else [CacheOp.remove s.guid]

/-- Shallow embedding of pub_on_data_available (types.hpp lines 51-135).
The sequences are created with initial length 8, but the take itself is
issued with dds_LENGTH_UNLIMITED; after the per-sample loop the graph
guard condition is triggered once iff the taken sequence is non-empty. -/
def pub_on_data_available (env : ListenerEnv) : ListenerOut :=
  if !env.contextPresent then ⟨[], 0, 0⟩
  else if !env.dataSeqOk then ⟨[], 0, 0⟩
  else if !env.infoSeqOk then ⟨[], 0, 0⟩
  else
    match env.takeRet with
    | DdsRet.noData => ⟨[], 0, 0⟩
    | DdsRet.err => ⟨[], 0, 0⟩
    | DdsRet.ok =>
      let samples := dds_DataReader_take env.available dds_LENGTH_UNLIMITED
      ⟨samples.foldr (fun s acc => processSample s ++ acc) [],
        if samples.length > 0 then 1 else 0,
        samples.length⟩

/-- Shallow embedding of sub_on_data_available (types.hpp lines 137-221);
identical control flow on subscription builtin-topic data. -/
def sub_on_data_available (env : ListenerEnv) : ListenerOut :=
  if !env.contextPresent then ⟨[], 0, 0⟩
  else if !env.dataSeqOk then ⟨[], 0, 0⟩
  else if !env.infoSeqOk then ⟨[], 0, 0⟩
  else
    match env.takeRet with
    | DdsRet.noData => ⟨[], 0, 0⟩
    | DdsRet.err => ⟨[], 0, 0⟩
    | DdsRet.ok =>
      let samples := dds_DataReader_take env.available dds_LENGTH_UNLIMITED
      ⟨samples.foldr (fun s acc => processSample s ++ acc) [],
        if samples.length > 0 then 1 else 0,
        samples.length⟩

/-- Claim C4: a discovery data-available callback whose take yields a
non-empty batch triggers the process-wide graph guard condition exactly
once for the whole batch, never zero times and never once per sample. -/
theorem discovery_batch_triggers_once
    (env : ListenerEnv)
    (hc : env.contextPresent = true) (h1 : env.dataSeqOk = true)
    (h2 : env.infoSeqOk = true) (ht : env.takeRet = DdsRet.ok)
    (hne : env.available ≠ []) :
    (pub_on_data_available env).triggerCount = 1 ∧
    (sub_on_data_available env).triggerCount = 1 := by
  constructor
  · simp [pub_on_data_available, hc, h1, h2, ht,
      dds_DataReader_take, dds_LENGTH_UNLIMITED, List.length_pos, hne]
  · simp [sub_on_data_available, hc, h1, h2, ht,
      dds_DataReader_take, dds_LENGTH_UNLIMITED, List.length_pos, hne]

/-- A concrete alive discovery sample. -/
def sampleBI : BISample := ⟨false, true, true, guidA, guidB, "t", "ty"⟩

/-- Witness for C4: a concrete two-sample batch triggers once, not 0 and
not 2 times. -/
theorem discovery_batch_triggers_once_witness :
    (pub_on_data_available ⟨true, true, true, DdsRet.ok, [sampleBI, sampleBI]⟩).triggerCount
      = 1 :=
  (discovery_batch_triggers_once ⟨true, true, true, DdsRet.ok, [sampleBI, sampleBI]⟩
    rfl rfl rfl rfl (by decide)).1

/-- A callback environment with nine available discovery samples. -/
def envNine : ListenerEnv := ⟨true, true, true, DdsRet.ok, List.replicate 9 sampleBI⟩

/-- Counterexample for C5: the take is issued with dds_LENGTH_UNLIMITED,
not with a bound of 8, so a callback with nine available samples takes
all nine of them in one batch. -/
theorem discovery_take_not_bounded_by_eight :
    ¬ ((pub_on_data_available envNine).takenCount ≤ 8 ∧
       (sub_on_data_available envNine).takenCount ≤ 8) := by
  decide

/-- Amended C5: on every built-in-reader data-available callback the
listener takes the whole batch of available discovery samples (the take
uses dds_LENGTH_UNLIMITED; the sample sequences are merely created with
initial length 8, which bounds nothing). -/
theorem discovery_take_unbounded
    (env : ListenerEnv)
    (hc : env.contextPresent = true) (h1 : env.dataSeqOk = true)
    (h2 : env.infoSeqOk = true) (ht : env.takeRet = DdsRet.ok) :
    (pub_on_data_available env).takenCount = env.available.length ∧
    (sub_on_data_available env).takenCount = env.available.length := by
  constructor
  · simp [pub_on_data_available, hc, h1, h2, ht,
      dds_DataReader_take, dds_LENGTH_UNLIMITED]
  · simp [sub_on_data_available, hc, h1, h2, ht,
      dds_DataReader_take, dds_LENGTH_UNLIMITED]

/-- Witness for amended C5: the nine-sample batch is taken whole. -/
theorem discovery_take_unbounded_witness :
    (pub_on_data_available envNine).takenCount = envNine.available.length :=
  (discovery_take_unbounded envNine rfl rfl rfl rfl).1

/-! ## rmw_take_request (rmw_request.cpp, lines 111-206) and the
service-side request queue -/

/-- One entry of the service message queue: validity flag from the
sample info, whether the sample pointer is null, the outcome of
deserialize_request, and the embedded correlation pair. -/
structure QMsg where
  valid_data : Bool
  sampleNull : Bool
  deserOk : Bool
  seq : Int
  guid : Guid
  deriving DecidableEq

/-- Service-side queue state: the inbound message queue (front first)
and the trigger value of the queue guard condition. -/
structure SvcQueueState where
  queue : List QMsg
  guard : Bool
  deriving DecidableEq

/-- Result of one rmw_take_request call. -/
structure TakeReqOut where
  ret : RmwRet
  taken : Bool
  header : Option (Int × Guid)
  state : SvcQueueState
  deriving DecidableEq

/-- Shallow embedding of rmw_take_request (rmw_request.cpp lines
111-206).  Under the queue mutex the front entry is popped with no
emptiness check (std::queue front/pop on an empty queue are undefined,
modelled as none) and the guard condition is cleared exactly when the
pop leaves the queue empty; afterwards the entry is deserialized into
the request header when its data is valid.  Exactly one entry is
consumed in every defined branch. -/
def rmw_take_request (st : SvcQueueState) : Option TakeReqOut :=
  match st.queue with
  | [] => none
  | msg :: rest =>
    let guard' := if rest.isEmpty then false else st.guard
    let st' : SvcQueueState := ⟨rest, guard'⟩
    some <|
      if msg.valid_data then
        if msg.sampleNull then ⟨RmwRet.error, false, none, st'⟩
        else if !msg.deserOk then ⟨RmwRet.error, false, none, st'⟩
        else ⟨RmwRet.ok, true, some (msg.seq, msg.guid), st'⟩
      else ⟨RmwRet.ok, false, none, st'⟩

/-- Modelled from the spec: the asynchronous request-reader callback
that feeds the service message queue is not part of the provided
sources; per the specification it enqueues each arriving request in
arrival order and signals the guard condition on the empty to non-empty
transition (queue non-empty iff guard signaled). -/
def enqueue_request (st : SvcQueueState) (m : QMsg) : SvcQueueState :=
  ⟨st.queue ++ [m], if st.queue.isEmpty then true else st.guard⟩

/-- Claim C8: the queue/guard coupling invariant (guard signaled iff the
queue is non-empty) is preserved by enqueue and by rmw_take_request;
every defined take consumes exactly one entry, even when the entry data
is invalid, and clears the guard exactly when the pop empties the
queue, so taking one of two enqueued entries leaves the guard set. -/
theorem take_request_queue_guard_invariant
    (st : SvcQueueState) (hinv : st.guard = !st.queue.isEmpty) :
    (∀ m, (enqueue_request st m).guard =
        !(enqueue_request st m).queue.isEmpty) ∧
    (∀ o, rmw_take_request st = some o →
      o.state.queue = st.queue.tail ∧
      o.state.queue.length + 1 = st.queue.length ∧
      o.state.guard = !o.state.queue.isEmpty ∧
      (o.state.guard = false ↔ o.state.queue = [])) := by
  obtain ⟨q, g⟩ := st
  constructor
  · intro m
    cases q with
    | nil => simp [enqueue_request]
    | cons a l =>
      simp only [List.isEmpty_cons, Bool.not_false] at hinv
      simp [enqueue_request, hinv]
  · intro o ho
    cases q with
    | nil => simp [rmw_take_request] at ho
    | cons msg rest =>
      simp only [List.isEmpty_cons, Bool.not_false] at hinv
      have hmain : o.state = ⟨rest, if rest.isEmpty then false else g⟩ := by
        simp only [rmw_take_request, Option.some.injEq] at ho
        cases hv : msg.valid_data with
        | false => rw [hv] at ho; simp at ho; rw [← ho]; cases rest <;> simp
        | true =>
          rw [hv] at ho
          cases hn : msg.sampleNull with
          | true => rw [hn] at ho; simp at ho; rw [← ho]; cases rest <;> simp
          | false =>
            rw [hn] at ho
            cases hd : msg.deserOk with
            | false => rw [hd] at ho; simp at ho; rw [← ho]; cases rest <;> simp
            | true => rw [hd] at ho; simp at ho; rw [← ho]; cases rest <;> simp
      rw [hmain]
      cases hr : rest with
      | nil => simp
      | cons b l => simp [hinv, hr]

/-- Witness for C8: starting from the empty queue with the guard clear,
enqueueing two requests and taking one leaves the guard set. -/
theorem take_request_queue_guard_invariant_witness :
    (rmw_take_request
        (enqueue_request (enqueue_request ⟨[], false⟩ ⟨true, false, true, 1, guidA⟩)
          ⟨true, false, true, 2, guidA⟩)) =
      some ⟨RmwRet.ok, true, some (1, guidA),
        ⟨[⟨true, false, true, 2, guidA⟩], true⟩⟩ ∧
    (⟨[⟨true, false, true, 2, guidA⟩], true⟩ : SvcQueueState).guard = true := by
  have h := take_request_queue_guard_invariant
    (enqueue_request (enqueue_request ⟨[], false⟩ ⟨true, false, true, 1, guidA⟩)
      ⟨true, false, true, 2, guidA⟩) (by decide)
  have h2 := (h.2 ⟨RmwRet.ok, true, some (1, guidA),
      ⟨[⟨true, false, true, 2, guidA⟩], true⟩⟩ (by decide)).2.2.1
  exact ⟨by decide, by decide⟩

/-- Claim C10: rmw_take_request pops the front of the service queue
unconditionally, without an emptiness check or blocking: the call is
defined exactly when the queue is non-empty, and every defined call
consumes the front entry. -/
theorem take_request_requires_nonempty_queue (st : SvcQueueState) :
    (rmw_take_request st = none ↔ st.queue = []) ∧
    (∀ o, rmw_take_request st = some o → o.state.queue = st.queue.tail) := by
  obtain ⟨q, g⟩ := st
  constructor
  · cases q with
    | nil => simp [rmw_take_request]
    | cons msg rest => simp [rmw_take_request]
  · intro o ho
    cases q with
    | nil => simp [rmw_take_request] at ho
    | cons msg rest =>
      simp only [rmw_take_request, Option.some.injEq] at ho
      cases hv : msg.valid_data with
      | false => rw [hv] at ho; simp at ho; rw [← ho]; simp
      | true =>
        rw [hv] at ho
        cases hn : msg.sampleNull with
        | true => rw [hn] at ho; simp at ho; rw [← ho]; simp
        | false =>
          rw [hn] at ho
          cases hd : msg.deserOk with
          | false => rw [hd] at ho; simp at ho; rw [← ho]; simp
          | true => rw [hd] at ho; simp at ho; rw [← ho]; simp

/-- Witness for C10: on the empty queue the call is undefined; on a
one-entry queue it consumes the entry. -/
theorem take_request_requires_nonempty_queue_witness :
    (rmw_take_request ⟨[], false⟩ = none) ∧
    (rmw_take_request ⟨[⟨true, false, true, 1, guidA⟩], true⟩ ≠ none) :=
  ⟨(take_request_requires_nonempty_queue ⟨[], false⟩).1.mpr rfl,
   by
    have h := (take_request_requires_nonempty_queue
      ⟨[⟨true, false, true, 1, guidA⟩], true⟩).1
    intro hn
    exact absurd (h.mp hn) (by decide)⟩

/-! ## rmw_destroy_client (part_000, lines 379-480) and
rmw_destroy_service (rmw_service.cpp, lines 436-539) -/

/-- Nullability of the sub-objects of a client info record. -/
structure ClientInfoRec where
  participant : Bool
  dds_publisher : Bool
  request_writer : Bool
  dds_subscriber : Bool
  response_reader : Bool
  read_condition : Bool
  deriving DecidableEq, Fintype

/-- Nullability of the sub-objects of a service info record. -/
structure ServiceInfoRec where
  participant : Bool
  dds_subscriber : Bool
  request_reader : Bool
  read_condition : Bool
  dds_publisher : Bool
  response_writer : Bool
  deriving DecidableEq, Fintype

/-- Teardown steps observable from outside. -/
inductive TearAction
  | delWriter
  | delPublisher
  | delReadCond
  | delReader
  | delSubscriber
  | freeInfo
  | freeName
  | freeHandle
  | trigger
  deriving DecidableEq

/-- Success of each vendor delete call and of the final guard trigger. -/
structure TeardownEnv where
  delWriterOk : Bool
  delPublisherOk : Bool
  delReadCondOk : Bool
  delReaderOk : Bool
  delSubscriberOk : Bool
  triggerOk : Bool
  deriving DecidableEq, Fintype

/-- Result of a destroy call: final return code, the teardown actions
performed in order, and whether an error was reported
(RMW_SET_ERROR_MSG) during the teardown. -/
structure TeardownOut where
  ret : RmwRet
  actions : List TearAction
  errorReported : Bool
  deriving DecidableEq

/-- Shallow embedding of rmw_destroy_client (part_000 lines 379-480).
Errors (both delete failures and inconsistent sub-object states such as
a writer without its publisher) are reported into rmw_ret but the
conditional chains continue with the remaining sibling resources; the
info record and the client handle are always freed, and the final
return value is overwritten by the result of the guard trigger. -/
def rmw_destroy_client (info : Option ClientInfoRec) (namePresent : Bool)
    (env : TeardownEnv) : TeardownOut :=
  match info with
  | none =>
    ⟨if env.triggerOk then RmwRet.ok else RmwRet.error,
      [TearAction.freeHandle, TearAction.trigger], false⟩
  | some ci =>
    let pubActs : List TearAction :=
      if ci.participant then
        if ci.dds_publisher then
          (if ci.request_writer then [TearAction.delWriter] else [])
            ++ [TearAction.delPublisher]
        else []
      else []
    let pubErr : Bool :=
      if ci.participant then
        if ci.dds_publisher then
          (ci.request_writer && !env.delWriterOk) || !env.delPublisherOk
        else ci.request_writer
      else false
    let subActs : List TearAction :=
      if ci.participant then
        if ci.dds_subscriber then
          (if ci.response_reader then
            (if ci.read_condition then [TearAction.delReadCond] else [])
              ++ [TearAction.delReader]
          else []) ++ [TearAction.delSubscriber]
        else []
      else []
    let subErr : Bool :=
      if ci.participant then
        if ci.dds_subscriber then
          (ci.response_reader &&
            ((ci.read_condition && !env.delReadCondOk) || !env.delReaderOk)) ||
          (!ci.response_reader && ci.read_condition) || !env.delSubscriberOk
        else ci.response_reader
      else ci.dds_publisher || ci.dds_subscriber
    ⟨if env.triggerOk then RmwRet.ok else RmwRet.error,
      pubActs ++ subActs ++ [TearAction.freeInfo]
        ++ (if namePresent then [TearAction.freeName] else [])
        ++ [TearAction.freeHandle, TearAction.trigger],
      pubErr || subErr⟩

/-- Tail of rmw_destroy_service once both endpoint chains succeeded:
free the info record and the name, free the handle, trigger the graph
guard condition and return its result. -/
def finishDestroyService (namePresent : Bool) (env : TeardownEnv)
    (acc : List TearAction) : TeardownOut :=
  ⟨if env.triggerOk then RmwRet.ok else RmwRet.error,
    acc ++ [TearAction.freeInfo]
      ++ (if namePresent then [TearAction.freeName] else [])
      ++ [TearAction.freeHandle, TearAction.trigger],
    false⟩

/-- Publisher-side chain of rmw_destroy_service (rmw_service.cpp lines
495-513): every failure or inconsistency returns RMW_RET_ERROR
immediately. -/
def destroyServicePubSide (si : ServiceInfoRec) (namePresent : Bool)
    (env : TeardownEnv) (acc : List TearAction) : TeardownOut :=
  if si.dds_publisher then
    if si.response_writer then
      if !env.delWriterOk then ⟨RmwRet.error, acc ++ [TearAction.delWriter], true⟩
      else if !env.delPublisherOk then
        ⟨RmwRet.error, acc ++ [TearAction.delWriter, TearAction.delPublisher], true⟩
      else finishDestroyService namePresent env
        (acc ++ [TearAction.delWriter, TearAction.delPublisher])
    else if !env.delPublisherOk then
      ⟨RmwRet.error, acc ++ [TearAction.delPublisher], true⟩
    else finishDestroyService namePresent env (acc ++ [TearAction.delPublisher])
  else if si.response_writer then ⟨RmwRet.error, acc, true⟩
  else finishDestroyService namePresent env acc

/-- Shallow embedding of rmw_destroy_service (rmw_service.cpp lines
436-539).  Unlike rmw_destroy_client, every delete failure and every
inconsistent sub-object state returns RMW_RET_ERROR at once, so the
teardown of the remaining sibling resources (and the freeing of the
info record and handle) does not run. -/
def rmw_destroy_service (info : Option ServiceInfoRec) (namePresent : Bool)
    (env : TeardownEnv) : TeardownOut :=
  match info with
  | none =>
    ⟨if env.triggerOk then RmwRet.ok else RmwRet.error,
      [TearAction.freeHandle, TearAction.trigger], false⟩
  | some si =>
    if si.participant then
      if si.dds_subscriber then
        if si.request_reader then
          if si.read_condition && !env.delReadCondOk then
            ⟨RmwRet.error, [TearAction.delReadCond], true⟩
          else
            let a1 := if si.read_condition then [TearAction.delReadCond] else []
            if !env.delReaderOk then
              ⟨RmwRet.error, a1 ++ [TearAction.delReader], true⟩
            else if !env.delSubscriberOk then
              ⟨RmwRet.error, a1 ++ [TearAction.delReader, TearAction.delSubscriber], true⟩
            else destroyServicePubSide si namePresent env
              (a1 ++ [TearAction.delReader, TearAction.delSubscriber])
        else if si.read_condition then ⟨RmwRet.error, [], true⟩
        else if !env.delSubscriberOk then
          ⟨RmwRet.error, [TearAction.delSubscriber], true⟩
        else destroyServicePubSide si namePresent env [TearAction.delSubscriber]
      else if si.request_reader then ⟨RmwRet.error, [], true⟩
      else destroyServicePubSide si namePresent env []
    else if si.dds_subscriber || si.dds_publisher then ⟨RmwRet.error, [], true⟩
    else finishDestroyService namePresent env []

/-- The all-successful teardown environment. -/
def teardownEnvOk : TeardownEnv := ⟨true, true, true, true, true, true⟩

/-- Counterexample for C6: a partially-constructed service record with a
request reader but a null subscriber, and a fully present publisher
side.  rmw_destroy_service reports the inconsistency and returns
immediately: the response writer, the publisher and the info record are
never torn down, so the teardown of sibling resources IS aborted. -/
theorem destroy_service_aborts_on_inconsistency :
    rmw_destroy_service (some ⟨true, false, true, false, true, true⟩) true teardownEnvOk
      = ⟨RmwRet.error, [], true⟩ ∧
    TearAction.delWriter ∉
      (rmw_destroy_service (some ⟨true, false, true, false, true, true⟩) true
        teardownEnvOk).actions ∧
    TearAction.freeInfo ∉
      (rmw_destroy_service (some ⟨true, false, true, false, true, true⟩) true
        teardownEnvOk).actions := by
  decide

/-- Amended C6: in rmw_destroy_client an inconsistent sub-object state
(for example an endpoint present while its owning group is null) is
reported as an error yet the teardown of the remaining sibling
resources still runs and the info record and handle are always freed;
in rmw_destroy_service, however, any inconsistency makes the call
return RMW_RET_ERROR immediately, aborting the teardown of the
remaining siblings. -/
theorem destroy_teardown_behavior :
    (∀ (ci : ClientInfoRec) (np : Bool) (env : TeardownEnv),
      TearAction.freeInfo ∈ (rmw_destroy_client (some ci) np env).actions ∧
      TearAction.freeHandle ∈ (rmw_destroy_client (some ci) np env).actions ∧
      (ci.participant = true → ci.dds_publisher = true →
        TearAction.delPublisher ∈ (rmw_destroy_client (some ci) np env).actions) ∧
      (ci.participant = true → ci.dds_subscriber = true →
        TearAction.delSubscriber ∈ (rmw_destroy_client (some ci) np env).actions) ∧
      (ci.participant = true → ci.dds_publisher = false → ci.request_writer = true →
        (rmw_destroy_client (some ci) np env).errorReported = true)) ∧
    (∀ (si : ServiceInfoRec) (np : Bool) (env : TeardownEnv),
      si.participant = true → si.dds_subscriber = false → si.request_reader = true →
      rmw_destroy_service (some si) np env = ⟨RmwRet.error, [], true⟩) := by
  set_option maxRecDepth 4096 in
  constructor
  · decide
  · decide

/-- Witness for amended C6: a client record with a request writer but a
null publisher: the inconsistency is reported, yet the subscriber-side
sibling is still deleted. -/
theorem destroy_teardown_behavior_witness :
    (rmw_destroy_client (some ⟨true, false, true, true, true, true⟩) true
        teardownEnvOk).errorReported = true ∧
    TearAction.delSubscriber ∈
      (rmw_destroy_client (some ⟨true, false, true, true, true, true⟩) true
        teardownEnvOk).actions :=
  ⟨(destroy_teardown_behavior.1 ⟨true, false, true, true, true, true⟩ true
      teardownEnvOk).2.2.2.2 rfl rfl rfl,
   (destroy_teardown_behavior.1 ⟨true, false, true, true, true, true⟩ true
      teardownEnvOk).2.2.2.1 rfl rfl⟩


/-! ## rmw_create_client (part_000, lines 42-377) and rmw_create_service
(rmw_service.cpp, lines 40-434): acquisition and failure unwind -/

/-- The native resources a create call can acquire.  writer/reader are
the request writer / response reader for the client and the response
writer / request reader for the service; handle is the rmw_client_t /
rmw_service_t allocation and name the service-name buffer stored inside
it.  Type registrations are participant-level and shared, hence not
tracked as per-call resources. -/
inductive NRes
  | info
  | requestTS
  | responseTS
  | requestTopic
  | responseTopic
  | publisher
  | writer
  | subscriber
  | reader
  | readCondition
  | handle
  | name
  deriving DecidableEq

/-- Which local resource pointers are non-null at a given point of a
create call (the variables consulted by the goto-fail block). -/
structure CreateLocals where
  info : Bool
  requestTS : Bool
  responseTS : Bool
  requestTopic : Bool
  responseTopic : Bool
  publisher : Bool
  writer : Bool
  subscriber : Bool
  reader : Bool
  readCondition : Bool
  handle : Bool
  name : Bool
  deriving DecidableEq

/-- Locals of rmw_create_client after its first k acquisitions, in the
acquisition order of the source: client_info, request topic, response
topic, publisher, request writer, subscriber, response reader, read
condition, rmw_client handle, service-name buffer (the client never
creates typesupport objects). -/
def clientLocalsAt (k : Nat) : CreateLocals :=
  ⟨decide (1 ≤ k), false, false, decide (2 ≤ k), decide (3 ≤ k),
   decide (4 ≤ k), decide (5 ≤ k), decide (6 ≤ k), decide (7 ≤ k),
   decide (8 ≤ k), decide (9 ≤ k), decide (10 ≤ k)⟩

/-- Locals of rmw_create_service after its first k acquisitions, in the
acquisition order of the source: service_info, request typesupport,
response typesupport, request topic, response topic, subscriber,
request reader, read condition, publisher, response writer, rmw_service
handle, service-name buffer. -/
def serviceLocalsAt (k : Nat) : CreateLocals :=
  ⟨decide (1 ≤ k), decide (2 ≤ k), decide (3 ≤ k), decide (4 ≤ k),
   decide (5 ≤ k), decide (9 ≤ k), decide (10 ≤ k), decide (6 ≤ k),
   decide (7 ≤ k), decide (8 ≤ k), decide (11 ≤ k), decide (12 ≤ k)⟩

/-- Outcome of a create call: success returns the built entity, failure
jumps to the goto-fail block with the locals accumulated so far and
returns null. -/
inductive CreateResult
  | success (l : CreateLocals)
  | failure (l : CreateLocals)
  deriving DecidableEq

/-- Per-step success flags for every fallible vendor call made by
rmw_create_client after the goto-fail region begins (part_000 line 115
onwards), in source order. -/
structure CreateClientEnv where
  allocInfoOk : Bool
  reqTopicExists : Bool
  topicQos1Ok : Bool
  createReqTopicOk : Bool
  findReqTopicOk : Bool
  respTopicExists : Bool
  topicQos2Ok : Bool
  createRespTopicOk : Bool
  findRespTopicOk : Bool
  pubQosOk : Bool
  createPublisherOk : Bool
  finalizePubQosOk : Bool
  writerQosOk : Bool
  createWriterOk : Bool
  subQosOk : Bool
  createSubscriberOk : Bool
  finalizeSubQosOk : Bool
  readerQosOk : Bool
  createReaderOk : Bool
  createReadCondOk : Bool
  allocClientOk : Bool
  allocNameOk : Bool
  triggerOk : Bool
  deriving DecidableEq

/-- Topic acquisition in rmw_create_client (part_000 lines 181-236):
when the topic description is absent, get the default topic qos and
create the topic; when present, find it.  Either branch acquires the
topic on success and acquires nothing on failure (the client code has
no topic-qos finalize step). -/
def acquireTopic (texists qosOk createOk findOk : Bool) : Bool :=
  if texists then findOk else (qosOk && createOk)

/-- Shallow embedding of the goto-fail region of rmw_create_client
(part_000 lines 115-349): the sequence of fallible acquisitions in
source order; each failure jumps to the goto-fail block with the locals
acquired so far (clientLocalsAt k after k acquisitions). -/
def rmw_create_client_run (e : CreateClientEnv) : CreateResult :=
  if !e.allocInfoOk then CreateResult.failure (clientLocalsAt 0)
  else if !acquireTopic e.reqTopicExists e.topicQos1Ok e.createReqTopicOk e.findReqTopicOk then
    CreateResult.failure (clientLocalsAt 1)
  else if !acquireTopic e.respTopicExists e.topicQos2Ok e.createRespTopicOk e.findRespTopicOk then
    CreateResult.failure (clientLocalsAt 2)
  else if !e.pubQosOk then CreateResult.failure (clientLocalsAt 3)
  else if !e.createPublisherOk then CreateResult.failure (clientLocalsAt 3)
  else if !e.finalizePubQosOk then CreateResult.failure (clientLocalsAt 4)
  else if !e.writerQosOk then CreateResult.failure (clientLocalsAt 4)
  else if !e.createWriterOk then CreateResult.failure (clientLocalsAt 4)
  else if !e.subQosOk then CreateResult.failure (clientLocalsAt 5)
  else if !e.createSubscriberOk then CreateResult.failure (clientLocalsAt 5)
  else if !e.finalizeSubQosOk then CreateResult.failure (clientLocalsAt 6)
  else if !e.readerQosOk then CreateResult.failure (clientLocalsAt 6)
  else if !e.createReaderOk then CreateResult.failure (clientLocalsAt 6)
  else if !e.createReadCondOk then CreateResult.failure (clientLocalsAt 7)
  else if !e.allocClientOk then CreateResult.failure (clientLocalsAt 8)
  else if !e.allocNameOk then CreateResult.failure (clientLocalsAt 9)
  else if !e.triggerOk then CreateResult.failure (clientLocalsAt 10)
  else CreateResult.success (clientLocalsAt 10)

/-- The goto-fail block of rmw_create_client (part_000 lines 351-376):
free the rmw_client handle, then writer before publisher, then read
condition before reader before subscriber, then the info record.  The
topics and the service-name buffer are not touched. -/
def failBlockClient (l : CreateLocals) : List NRes :=
  (if l.handle then [NRes.handle] else []) ++
  (if l.publisher then
    (if l.writer then [NRes.writer] else []) ++ [NRes.publisher]
  else []) ++
  (if l.subscriber then
    (if l.reader then
      (if l.readCondition then [NRes.readCondition] else []) ++ [NRes.reader]
    else []) ++ [NRes.subscriber]
  else []) ++
  (if l.info then [NRes.info] else [])

/-- The resources acquired by rmw_create_client, in acquisition order,
given the locals at the failure point. -/
def acquiredClient (l : CreateLocals) : List NRes :=
  (if l.info then [NRes.info] else []) ++
  (if l.requestTopic then [NRes.requestTopic] else []) ++
  (if l.responseTopic then [NRes.responseTopic] else []) ++
  (if l.publisher then [NRes.publisher] else []) ++
  (if l.writer then [NRes.writer] else []) ++
  (if l.subscriber then [NRes.subscriber] else []) ++
  (if l.reader then [NRes.reader] else []) ++
  (if l.readCondition then [NRes.readCondition] else []) ++
  (if l.handle then [NRes.handle] else []) ++
  (if l.name then [NRes.name] else [])

/-- Per-step success flags for every fallible vendor call made by
rmw_create_service inside its goto-fail region (rmw_service.cpp lines
154-390), in source order. -/
structure CreateServiceEnv where
  allocInfoOk : Bool
  createReqTSOk : Bool
  registerReqOk : Bool
  createRespTSOk : Bool
  registerRespOk : Bool
  reqTopicExists : Bool
  topicQos1Ok : Bool
  createReqTopicOk : Bool
  finalizeTopicQos1Ok : Bool
  findReqTopicOk : Bool
  respTopicExists : Bool
  topicQos2Ok : Bool
  createRespTopicOk : Bool
  finalizeTopicQos2Ok : Bool
  findRespTopicOk : Bool
  subQosOk : Bool
  createSubscriberOk : Bool
  finalizeSubQosOk : Bool
  readerQosOk : Bool
  createReaderOk : Bool
  finalizeReaderQosOk : Bool
  createReadCondOk : Bool
  pubQosOk : Bool
  createPublisherOk : Bool
  finalizePubQosOk : Bool
  writerQosOk : Bool
  createWriterOk : Bool
  finalizeWriterQosOk : Bool
  allocServiceOk : Bool
  allocNameOk : Bool
  triggerOk : Bool
  deriving DecidableEq

/-- Final steps of rmw_create_service (rmw_service.cpp lines 355-390),
entered with 10 resources acquired: allocate the handle and the name,
trigger the graph guard condition; on success the two temporary
typesupports are deleted and nulled before returning. -/
def svcFinish (e : CreateServiceEnv) : CreateResult :=
  if !e.allocServiceOk then CreateResult.failure (serviceLocalsAt 10)
  else if !e.allocNameOk then CreateResult.failure (serviceLocalsAt 11)
  else if !e.triggerOk then CreateResult.failure (serviceLocalsAt 12)
  else CreateResult.success
    { serviceLocalsAt 12 with requestTS := false, responseTS := false }

/-- Publisher-side creation of rmw_create_service (rmw_service.cpp lines
315-354), entered with 8 resources acquired: default publisher qos,
create publisher, finalize its qos, derive writer qos, create the
response writer, finalize its qos. -/
def svcPubSide (e : CreateServiceEnv) : CreateResult :=
  if !e.pubQosOk then CreateResult.failure (serviceLocalsAt 8)
  else if !e.createPublisherOk then CreateResult.failure (serviceLocalsAt 8)
  else if !e.finalizePubQosOk then CreateResult.failure (serviceLocalsAt 9)
  else if !e.writerQosOk then CreateResult.failure (serviceLocalsAt 9)
  else if !e.createWriterOk then CreateResult.failure (serviceLocalsAt 9)
  else if !e.finalizeWriterQosOk then CreateResult.failure (serviceLocalsAt 10)
  else svcFinish e

/-- Subscriber-side creation of rmw_create_service (rmw_service.cpp
lines 265-313), entered with 5 resources acquired: default subscriber
qos, create subscriber, finalize its qos, derive reader qos, create the
request reader, finalize its qos, create the read condition. -/
def svcSubSide (e : CreateServiceEnv) : CreateResult :=
  if !e.subQosOk then CreateResult.failure (serviceLocalsAt 5)
  else if !e.createSubscriberOk then CreateResult.failure (serviceLocalsAt 5)
  else if !e.finalizeSubQosOk then CreateResult.failure (serviceLocalsAt 6)
  else if !e.readerQosOk then CreateResult.failure (serviceLocalsAt 6)
  else if !e.createReaderOk then CreateResult.failure (serviceLocalsAt 6)
  else if !e.finalizeReaderQosOk then CreateResult.failure (serviceLocalsAt 7)
  else if !e.createReadCondOk then CreateResult.failure (serviceLocalsAt 7)
  else svcPubSide e

/-- Response-topic acquisition in rmw_create_service (rmw_service.cpp
lines 229-263), entered with 4 resources acquired: on the create branch
the topic-qos finalize can fail after the topic has already been
created. -/
def svcRespTopic (e : CreateServiceEnv) : CreateResult :=
  if e.respTopicExists then
    if !e.findRespTopicOk then CreateResult.failure (serviceLocalsAt 4)
    else svcSubSide e
  else
    if !e.topicQos2Ok then CreateResult.failure (serviceLocalsAt 4)
    else if !e.createRespTopicOk then CreateResult.failure (serviceLocalsAt 4)
    else if !e.finalizeTopicQos2Ok then CreateResult.failure (serviceLocalsAt 5)
    else svcSubSide e

/-- Request-topic acquisition in rmw_create_service (rmw_service.cpp
lines 193-227), entered with 3 resources acquired, same structure as
the response topic. -/
def svcReqTopic (e : CreateServiceEnv) : CreateResult :=
  if e.reqTopicExists then
    if !e.findReqTopicOk then CreateResult.failure (serviceLocalsAt 3)
    else svcRespTopic e
  else
    if !e.topicQos1Ok then CreateResult.failure (serviceLocalsAt 3)
    else if !e.createReqTopicOk then CreateResult.failure (serviceLocalsAt 3)
    else if !e.finalizeTopicQos1Ok then CreateResult.failure (serviceLocalsAt 4)
    else svcRespTopic e

/-- Shallow embedding of the goto-fail region of rmw_create_service
(rmw_service.cpp lines 154-390): info allocation, the two typesupports
with their type registrations, then topics, subscriber side, publisher
side and the final allocations. -/
def rmw_create_service_run (e : CreateServiceEnv) : CreateResult :=
  if !e.allocInfoOk then CreateResult.failure (serviceLocalsAt 0)
  else if !e.createReqTSOk then CreateResult.failure (serviceLocalsAt 1)
  else if !e.registerReqOk then CreateResult.failure (serviceLocalsAt 2)
  else if !e.createRespTSOk then CreateResult.failure (serviceLocalsAt 2)
  else if !e.registerRespOk then CreateResult.failure (serviceLocalsAt 3)
  else svcReqTopic e

/-- The goto-fail block of rmw_create_service (rmw_service.cpp lines
392-433): free the rmw_service handle, read condition before reader
before subscriber, writer before publisher, then the topics, the two
typesupports and the info record.  The name buffer is not touched. -/
def failBlockService (l : CreateLocals) : List NRes :=
  (if l.handle then [NRes.handle] else []) ++
  (if l.subscriber then
    (if l.reader then
      (if l.readCondition then [NRes.readCondition] else []) ++ [NRes.reader]
    else []) ++ [NRes.subscriber]
  else []) ++
  (if l.publisher then
    (if l.writer then [NRes.writer] else []) ++ [NRes.publisher]
  else []) ++
  (if l.requestTopic then [NRes.requestTopic] else []) ++
  (if l.responseTopic then [NRes.responseTopic] else []) ++
  (if l.requestTS then [NRes.requestTS] else []) ++
  (if l.responseTS then [NRes.responseTS] else []) ++
  (if l.info then [NRes.info] else [])

/-- The resources acquired by rmw_create_service, in acquisition order,
given the locals at the failure point. -/
def acquiredService (l : CreateLocals) : List NRes :=
  (if l.info then [NRes.info] else []) ++
  (if l.requestTS then [NRes.requestTS] else []) ++
  (if l.responseTS then [NRes.responseTS] else []) ++
  (if l.requestTopic then [NRes.requestTopic] else []) ++
  (if l.responseTopic then [NRes.responseTopic] else []) ++
  (if l.subscriber then [NRes.subscriber] else []) ++
  (if l.reader then [NRes.reader] else []) ++
  (if l.readCondition then [NRes.readCondition] else []) ++
  (if l.publisher then [NRes.publisher] else []) ++
  (if l.writer then [NRes.writer] else []) ++
  (if l.handle then [NRes.handle] else []) ++
  (if l.name then [NRes.name] else [])


/-- In a release list, resource a is released before resource b
whenever both appear. -/
def relBefore (l : List NRes) (a b : NRes) : Prop :=
  a ∈ l → b ∈ l → l.indexOf a < l.indexOf b

/-- Reverse-dependency release order: each endpoint (and the read
condition) is released before its owning group. -/
def childBeforeParent (l : List NRes) : Prop :=
  relBefore l NRes.writer NRes.publisher ∧
  relBefore l NRes.readCondition NRes.reader ∧
  relBefore l NRes.reader NRes.subscriber

instance (l : List NRes) (a b : NRes) : Decidable (relBefore l a b) := by
  unfold relBefore
  infer_instance

instance (l : List NRes) : Decidable (childBeforeParent l) := by
  unfold childBeforeParent
  infer_instance

/-- The locals states at which rmw_create_client can enter its goto-fail
block: the prefixes of its acquisition order. -/
def clientFailLocals : List CreateLocals := (List.range 11).map clientLocalsAt

/-- The locals states at which rmw_create_service can enter its
goto-fail block: the prefixes of its acquisition order. -/
def serviceFailLocals : List CreateLocals := (List.range 13).map serviceLocalsAt


/-- Every failure of rmw_create_client lands in one of the prefix
locals states. -/
theorem client_fail_locals_mem (e : CreateClientEnv) (l : CreateLocals)
    (h : rmw_create_client_run e = CreateResult.failure l) :
    l ∈ clientFailLocals := by
  unfold rmw_create_client_run at h
  rcases Bool.eq_false_or_eq_true e.allocInfoOk with hc0 | hc0
  case inr =>
    simp [hc0] at h
    subst h
    decide
  simp [hc0] at h
  rcases Bool.eq_false_or_eq_true (acquireTopic e.reqTopicExists e.topicQos1Ok e.createReqTopicOk e.findReqTopicOk) with hc1 | hc1
  case inr =>
    simp [hc1] at h
    subst h
    decide
  simp [hc1] at h
  rcases Bool.eq_false_or_eq_true (acquireTopic e.respTopicExists e.topicQos2Ok e.createRespTopicOk e.findRespTopicOk) with hc2 | hc2
  case inr =>
    simp [hc2] at h
    subst h
    decide
  simp [hc2] at h
  rcases Bool.eq_false_or_eq_true e.pubQosOk with hc3 | hc3
  case inr =>
    simp [hc3] at h
    subst h
    decide
  simp [hc3] at h
  rcases Bool.eq_false_or_eq_true e.createPublisherOk with hc4 | hc4
  case inr =>
    simp [hc4] at h
    subst h
    decide
  simp [hc4] at h
  rcases Bool.eq_false_or_eq_true e.finalizePubQosOk with hc5 | hc5
  case inr =>
    simp [hc5] at h
    subst h
    decide
  simp [hc5] at h
  rcases Bool.eq_false_or_eq_true e.writerQosOk with hc6 | hc6
  case inr =>
    simp [hc6] at h
    subst h
    decide
  simp [hc6] at h
  rcases Bool.eq_false_or_eq_true e.createWriterOk with hc7 | hc7
  case inr =>
    simp [hc7] at h
    subst h
    decide
  simp [hc7] at h
  rcases Bool.eq_false_or_eq_true e.subQosOk with hc8 | hc8
  case inr =>
    simp [hc8] at h
    subst h
    decide
  simp [hc8] at h
  rcases Bool.eq_false_or_eq_true e.createSubscriberOk with hc9 | hc9
  case inr =>
    simp [hc9] at h
    subst h
    decide
  simp [hc9] at h
  rcases Bool.eq_false_or_eq_true e.finalizeSubQosOk with hc10 | hc10
  case inr =>
    simp [hc10] at h
    subst h
    decide
  simp [hc10] at h
  rcases Bool.eq_false_or_eq_true e.readerQosOk with hc11 | hc11
  case inr =>
    simp [hc11] at h
    subst h
    decide
  simp [hc11] at h
  rcases Bool.eq_false_or_eq_true e.createReaderOk with hc12 | hc12
  case inr =>
    simp [hc12] at h
    subst h
    decide
  simp [hc12] at h
  rcases Bool.eq_false_or_eq_true e.createReadCondOk with hc13 | hc13
  case inr =>
    simp [hc13] at h
    subst h
    decide
  simp [hc13] at h
  rcases Bool.eq_false_or_eq_true e.allocClientOk with hc14 | hc14
  case inr =>
    simp [hc14] at h
    subst h
    decide
  simp [hc14] at h
  rcases Bool.eq_false_or_eq_true e.allocNameOk with hc15 | hc15
  case inr =>
    simp [hc15] at h
    subst h
    decide
  simp [hc15] at h
  rcases Bool.eq_false_or_eq_true e.triggerOk with hcz | hcz
  case inr =>
    simp [hcz] at h
    subst h
    decide
  simp [hcz] at h

/-- Failures in the final steps of rmw_create_service land in the
prefix locals states. -/
theorem svcFinish_fail (e : CreateServiceEnv) (l : CreateLocals)
    (h : svcFinish e = CreateResult.failure l) :
    l ∈ serviceFailLocals := by
  unfold svcFinish at h
  rcases Bool.eq_false_or_eq_true e.allocServiceOk with hc0 | hc0
  case inr =>
    simp [hc0] at h
    subst h
    decide
  simp [hc0] at h
  rcases Bool.eq_false_or_eq_true e.allocNameOk with hc1 | hc1
  case inr =>
    simp [hc1] at h
    subst h
    decide
  simp [hc1] at h
  rcases Bool.eq_false_or_eq_true e.triggerOk with hcz | hcz
  case inr =>
    simp [hcz] at h
    subst h
    decide
  simp [hcz] at h

/-- Failures in the publisher side of rmw_create_service land in the
prefix locals states. -/
theorem svcPubSide_fail (e : CreateServiceEnv) (l : CreateLocals)
    (h : svcPubSide e = CreateResult.failure l) :
    l ∈ serviceFailLocals := by
  unfold svcPubSide at h
  rcases Bool.eq_false_or_eq_true e.pubQosOk with hc0 | hc0
  case inr =>
    simp [hc0] at h
    subst h
    decide
  simp [hc0] at h
  rcases Bool.eq_false_or_eq_true e.createPublisherOk with hc1 | hc1
  case inr =>
    simp [hc1] at h
    subst h
    decide
  simp [hc1] at h
  rcases Bool.eq_false_or_eq_true e.finalizePubQosOk with hc2 | hc2
  case inr =>
    simp [hc2] at h
    subst h
    decide
  simp [hc2] at h
  rcases Bool.eq_false_or_eq_true e.writerQosOk with hc3 | hc3
  case inr =>
    simp [hc3] at h
    subst h
    decide
  simp [hc3] at h
  rcases Bool.eq_false_or_eq_true e.createWriterOk with hc4 | hc4
  case inr =>
    simp [hc4] at h
    subst h
    decide
  simp [hc4] at h
  rcases Bool.eq_false_or_eq_true e.finalizeWriterQosOk with hc5 | hc5
  case inr =>
    simp [hc5] at h
    subst h
    decide
  simp [hc5] at h
  exact svcFinish_fail e l h

/-- Failures in the subscriber side of rmw_create_service land in the
prefix locals states. -/
theorem svcSubSide_fail (e : CreateServiceEnv) (l : CreateLocals)
    (h : svcSubSide e = CreateResult.failure l) :
    l ∈ serviceFailLocals := by
  unfold svcSubSide at h
  rcases Bool.eq_false_or_eq_true e.subQosOk with hc0 | hc0
  case inr =>
    simp [hc0] at h
    subst h
    decide
  simp [hc0] at h
  rcases Bool.eq_false_or_eq_true e.createSubscriberOk with hc1 | hc1
  case inr =>
    simp [hc1] at h
    subst h
    decide
  simp [hc1] at h
  rcases Bool.eq_false_or_eq_true e.finalizeSubQosOk with hc2 | hc2
  case inr =>
    simp [hc2] at h
    subst h
    decide
  simp [hc2] at h
  rcases Bool.eq_false_or_eq_true e.readerQosOk with hc3 | hc3
  case inr =>
    simp [hc3] at h
    subst h
    decide
  simp [hc3] at h
  rcases Bool.eq_false_or_eq_true e.createReaderOk with hc4 | hc4
  case inr =>
    simp [hc4] at h
    subst h
    decide
  simp [hc4] at h
  rcases Bool.eq_false_or_eq_true e.finalizeReaderQosOk with hc5 | hc5
  case inr =>
    simp [hc5] at h
    subst h
    decide
  simp [hc5] at h
  rcases Bool.eq_false_or_eq_true e.createReadCondOk with hc6 | hc6
  case inr =>
    simp [hc6] at h
    subst h
    decide
  simp [hc6] at h
  exact svcPubSide_fail e l h

/-- Failures in the response-topic step of rmw_create_service land in
the prefix locals states. -/
theorem svcRespTopic_fail (e : CreateServiceEnv) (l : CreateLocals)
    (h : svcRespTopic e = CreateResult.failure l) :
    l ∈ serviceFailLocals := by
  unfold svcRespTopic at h
  rcases Bool.eq_false_or_eq_true e.respTopicExists with hb | hb
  case inr =>
    simp [hb] at h
    rcases Bool.eq_false_or_eq_true e.topicQos2Ok with hc0 | hc0
    case inr =>
      simp [hc0] at h
      subst h
      decide
    simp [hc0] at h
    rcases Bool.eq_false_or_eq_true e.createRespTopicOk with hc1 | hc1
    case inr =>
      simp [hc1] at h
      subst h
      decide
    simp [hc1] at h
    rcases Bool.eq_false_or_eq_true e.finalizeTopicQos2Ok with hc2 | hc2
    case inr =>
      simp [hc2] at h
      subst h
      decide
    simp [hc2] at h
    exact svcSubSide_fail e l h
  simp [hb] at h
  rcases Bool.eq_false_or_eq_true e.findRespTopicOk with hc0 | hc0
  case inr =>
    simp [hc0] at h
    subst h
    decide
  simp [hc0] at h
  exact svcSubSide_fail e l h

/-- Failures in the request-topic step of rmw_create_service land in
the prefix locals states. -/
theorem svcReqTopic_fail (e : CreateServiceEnv) (l : CreateLocals)
    (h : svcReqTopic e = CreateResult.failure l) :
    l ∈ serviceFailLocals := by
  unfold svcReqTopic at h
  rcases Bool.eq_false_or_eq_true e.reqTopicExists with hb | hb
  case inr =>
    simp [hb] at h
    rcases Bool.eq_false_or_eq_true e.topicQos1Ok with hc0 | hc0
    case inr =>
      simp [hc0] at h
      subst h
      decide
    simp [hc0] at h
    rcases Bool.eq_false_or_eq_true e.createReqTopicOk with hc1 | hc1
    case inr =>
      simp [hc1] at h
      subst h
      decide
    simp [hc1] at h
    rcases Bool.eq_false_or_eq_true e.finalizeTopicQos1Ok with hc2 | hc2
    case inr =>
      simp [hc2] at h
      subst h
      decide
    simp [hc2] at h
    exact svcRespTopic_fail e l h
  simp [hb] at h
  rcases Bool.eq_false_or_eq_true e.findReqTopicOk with hc0 | hc0
  case inr =>
    simp [hc0] at h
    subst h
    decide
  simp [hc0] at h
  exact svcRespTopic_fail e l h

/-- Every failure of rmw_create_service lands in one of the prefix
locals states. -/
theorem service_fail_locals_mem (e : CreateServiceEnv) (l : CreateLocals)
    (h : rmw_create_service_run e = CreateResult.failure l) :
    l ∈ serviceFailLocals := by
  unfold rmw_create_service_run at h
  rcases Bool.eq_false_or_eq_true e.allocInfoOk with hc0 | hc0
  case inr =>
    simp [hc0] at h
    subst h
    decide
  simp [hc0] at h
  rcases Bool.eq_false_or_eq_true e.createReqTSOk with hc1 | hc1
  case inr =>
    simp [hc1] at h
    subst h
    decide
  simp [hc1] at h
  rcases Bool.eq_false_or_eq_true e.registerReqOk with hc2 | hc2
  case inr =>
    simp [hc2] at h
    subst h
    decide
  simp [hc2] at h
  rcases Bool.eq_false_or_eq_true e.createRespTSOk with hc3 | hc3
  case inr =>
    simp [hc3] at h
    subst h
    decide
  simp [hc3] at h
  rcases Bool.eq_false_or_eq_true e.registerRespOk with hc4 | hc4
  case inr =>
    simp [hc4] at h
    subst h
    decide
  simp [hc4] at h
  exact svcReqTopic_fail e l h

/-- A client create environment in which every step succeeds, taking the
find-existing branch for both topics. -/
def envClientAllOk : CreateClientEnv :=
  ⟨true, true, true, true, true, true, true, true, true, true, true, true,
   true, true, true, true, true, true, true, true, true, true, true⟩

/-- Counterexample for C7: fail rmw_create_client at the
create-publisher step, after both topics have been found.  The goto-fail
block releases the info record but neither topic: the claim that every
failure path releases the topics created or found is false for
rmw_create_client. -/
theorem create_client_leaks_topics_on_failure :
    rmw_create_client_run { envClientAllOk with createPublisherOk := false } =
      CreateResult.failure (clientLocalsAt 3) ∧
    NRes.requestTopic ∈ acquiredClient (clientLocalsAt 3) ∧
    NRes.requestTopic ∉ failBlockClient (clientLocalsAt 3) := by
  decide

/-- Amended C7: on every failure point, both create calls unwind with no
double release (the released list is duplicate-free and releases only
acquired resources) and endpoints are released before their owning
groups; rmw_create_service releases every acquired resource except the
service-name buffer (leaked when the guard-trigger step fails), while
rmw_create_client additionally never releases the request and response
topics it created or found. -/
theorem create_unwind_properties :
    (∀ (e : CreateClientEnv) (l : CreateLocals),
      rmw_create_client_run e = CreateResult.failure l →
      (failBlockClient l).Nodup ∧
      (∀ r ∈ failBlockClient l, r ∈ acquiredClient l) ∧
      (∀ r ∈ acquiredClient l, r ∉ failBlockClient l →
        r = NRes.requestTopic ∨ r = NRes.responseTopic ∨ r = NRes.name) ∧
      childBeforeParent (failBlockClient l)) ∧
    (∀ (e : CreateServiceEnv) (l : CreateLocals),
      rmw_create_service_run e = CreateResult.failure l →
      (failBlockService l).Nodup ∧
      (∀ r ∈ failBlockService l, r ∈ acquiredService l) ∧
      (∀ r ∈ acquiredService l, r ∉ failBlockService l → r = NRes.name) ∧
      childBeforeParent (failBlockService l)) := by
  constructor
  · intro e l h
    have hall : ∀ x ∈ clientFailLocals,
        (failBlockClient x).Nodup ∧
        (∀ r ∈ failBlockClient x, r ∈ acquiredClient x) ∧
        (∀ r ∈ acquiredClient x, r ∉ failBlockClient x →
          r = NRes.requestTopic ∨ r = NRes.responseTopic ∨ r = NRes.name) ∧
        childBeforeParent (failBlockClient x) := by decide
    exact hall l (client_fail_locals_mem e l h)
  · intro e l h
    have hall : ∀ x ∈ serviceFailLocals,
        (failBlockService x).Nodup ∧
        (∀ r ∈ failBlockService x, r ∈ acquiredService x) ∧
        (∀ r ∈ acquiredService x, r ∉ failBlockService x → r = NRes.name) ∧
        childBeforeParent (failBlockService x) := by decide
    exact hall l (service_fail_locals_mem e l h)

/-- A service create environment in which every step succeeds with both
topics created fresh. -/
def envServiceAllOk : CreateServiceEnv :=
  ⟨true, true, true, true, true, false, true, true, true, true, false, true,
   true, true, true, true, true, true, true, true, true, true, true, true,
   true, true, true, true, true, true, true⟩

/-- Witness for amended C7: failing the guard-trigger step of
rmw_create_service after everything was acquired, the unwind is
duplicate-free and releases only acquired resources. -/
theorem create_unwind_properties_witness :
    (failBlockService (serviceLocalsAt 12)).Nodup :=
  (create_unwind_properties.2 { envServiceAllOk with triggerOk := false }
    (serviceLocalsAt 12) (by decide)).1
